import Mathlib

/-!
Verification of the charls-rs wrapper (`src/lib.rs`): a session object
`CharLS` around a native JPEG-LS codec engine, with lazy handle creation,
decode / encode / frame-info protocols and translation of native status
codes into a typed error enum.

The native engine is external (FFI).  It is modelled as an oracle
structure `Engine` whose fields give, for each native entry point, the
status code and output values the call produces.  In-place mutation of a
caller-allocated buffer by a native call is modelled by the oracle
returning the new buffer contents, constrained to have the same length
as the buffer passed in (a native call writes through a pointer into a
fixed-size allocation, so it cannot change the allocation's length).

Each wrapper operation is translated from the Rust source line by line.
An operation returns the `Result` value, the session state after the
call (`self` is `&mut`), and the list of native calls it performed, in
order, so that fail-fast / frame-effect claims are statable.
-/

namespace CharlsRs

/-- A native pointer; `0` models the null pointer (`is_null`). -/
abbrev Ptr := Nat

/-- A byte buffer (`Vec<u8>` / `&[u8]`). -/
abbrev Bytes := List Nat

/-- `charls_frame_info`, the native frame-metadata struct. -/
structure charls_frame_info where
  width : Nat
  height : Nat
  bits_per_sample : Int
  component_count : Int
deriving Repr, DecidableEq

/-- `FrameInfo`, the crate's public frame-metadata struct (lib.rs:71-77). -/
structure FrameInfo where
  width : Nat
  height : Nat
  bits_per_sample : Int
  component_count : Int
deriving Repr, DecidableEq

/-- `Error`, the crate's error enum (lib.rs:34-44).  `JpegLsError` carries
the native status code. -/
inductive Error where
  | InitCodec : Error
  | ComputeSize : Error
  | JpegLsError (code : Int) : Error
deriving Repr, DecidableEq

/-- One native call performed by the wrapper, with the arguments the
wrapper passed (buffer-valued arguments are recorded by contents). -/
inductive Call where
  | decoderCreate (ret : Ptr) : Call
  | setSourceBuffer (h : Ptr) (src : Bytes) : Call
  | readHeader (h : Ptr) : Call
  | getDestinationSize (h : Ptr) (stride : Nat) : Call
  | decodeToBuffer (h : Ptr) (dst : Bytes) (size : Nat) (stride : Nat) : Call
  | getFrameInfo (h : Ptr) : Call
  | encoderCreate (ret : Ptr) : Call
  | setFrameInfo (h : Ptr) (fi : charls_frame_info) : Call
  | getEstimatedDestinationSize (h : Ptr) : Call
  | setDestinationBuffer (h : Ptr) (dst : Bytes) : Call
  | setNearLossless (h : Ptr) (near : Int) : Call
  | encodeFromBuffer (h : Ptr) (data : Bytes) : Call
  | getBytesWritten (h : Ptr) : Call
  | decoderDestroy (h : Ptr) : Call
  | encoderDestroy (h : Ptr) : Call
deriving Repr, DecidableEq

/-- The native codec engine, as observed across one wrapper operation:
each field models one FFI entry point of `charls_sys`.  Status codes are
signed (`i32`); sizes are `usize`.  The two `_len` fields are the
memory model of in-place writes: a native call that fills a
caller-allocated buffer yields contents of the buffer's length. -/
structure Engine where
  charls_jpegls_decoder_create : Ptr
  charls_jpegls_encoder_create : Ptr
  charls_jpegls_decoder_set_source_buffer : Ptr → Bytes → Int
  charls_jpegls_decoder_read_header : Ptr → Int
  /-- `(handle, stride) ↦ (status, computed_size)` -/
  charls_jpegls_decoder_get_destination_size : Ptr → Nat → Int × Nat
  /-- `(handle, dst contents, size, stride) ↦ (status, dst contents after)` -/
  charls_jpegls_decoder_decode_to_buffer : Ptr → Bytes → Nat → Nat → Int × Bytes
  /-- `handle ↦ (status, frame info written through the out-pointer)` -/
  charls_jpegls_decoder_get_frame_info : Ptr → Int × charls_frame_info
  charls_jpegls_encoder_set_frame_info : Ptr → charls_frame_info → Int
  /-- `handle ↦ (status, estimated size written through the out-pointer)` -/
  charls_jpegls_encoder_get_estimated_destination_size : Ptr → Int × Nat
  /-- `(handle, destination length) ↦ status` -/
  charls_jpegls_encoder_set_destination_buffer : Ptr → Nat → Int
  charls_jpegls_encoder_set_near_lossless : Ptr → Int → Int
  /-- `(handle, source copy, stride, bound dst contents) ↦ (status, dst contents after)` -/
  charls_jpegls_encoder_encode_from_buffer : Ptr → Bytes → Nat → Bytes → Int × Bytes
  /-- `handle ↦ (status, bytes_written written through the out-pointer)` -/
  charls_jpegls_encoder_get_bytes_written : Ptr → Int × Nat
  /-- `charls_get_error_message`, already through `CStr::to_string_lossy`. -/
  charls_get_error_message : Int → String
  decode_len : ∀ h d s st,
    (charls_jpegls_decoder_decode_to_buffer h d s st).2.length = d.length
  encode_len : ∀ h d st dst,
    (charls_jpegls_encoder_encode_from_buffer h d st dst).2.length = dst.length

/-- `translate_error` (lib.rs:258-264). -/
def translate_error (code : Int) : Except Error Unit :=
  if code ≠ 0 then Except.error (Error.JpegLsError code)
  else Except.ok ()

/-- `impl Display for Error` (lib.rs:46-60); the `JpegLsError` arm calls
`charls_get_error_message` on the native code. -/
def Error.display (E : Engine) : Error → String
  | Error.InitCodec => "Unable to start the codec"
  | Error.ComputeSize => "Unable to compute decompressed size"
  | Error.JpegLsError code => E.charls_get_error_message code

/-- The session struct `CharLS` (lib.rs:66-69): one optional encoder
handle and one optional decoder handle. -/
structure CharLS where
  encoder : Option Ptr
  decoder : Option Ptr
deriving Repr, DecidableEq

/-- `self.decoder.unwrap_or_else(|| { self.decoder = Some(create()); self.decoder.unwrap() })`
(lib.rs:81-84, 205-208).  Note the created handle is stored in the slot
before any null check. -/
def ensureDecoder (E : Engine) (s : CharLS) : Ptr × CharLS × List Call :=
  match s.decoder with
  | some d => (d, s, [])
  | none =>
      let d := E.charls_jpegls_decoder_create
      (d, { s with decoder := some d }, [Call.decoderCreate d])

/-- `self.encoder.unwrap_or_else(|| { self.encoder = Some(create()); self.encoder.unwrap() })`
(lib.rs:141-144). -/
def ensureEncoder (E : Engine) (s : CharLS) : Ptr × CharLS × List Call :=
  match s.encoder with
  | some e => (e, s, [])
  | none =>
      let e := E.charls_jpegls_encoder_create
      (e, { s with encoder := some e }, [Call.encoderCreate e])

/-- `CharLS::decode_with_stride` (lib.rs:80-129). -/
def decode_with_stride (E : Engine) (s : CharLS) (src : Bytes) (stride : Nat) :
    Except Error Bytes × CharLS × List Call :=
  let r := ensureDecoder E s
  let decoder := r.1
  let s1 := r.2.1
  let t0 := r.2.2
  if decoder = 0 then (Except.error Error.InitCodec, s1, t0)
  else
    let err1 := E.charls_jpegls_decoder_set_source_buffer decoder src
    let t1 := t0 ++ [Call.setSourceBuffer decoder src]
    match translate_error err1 with
    | Except.error e => (Except.error e, s1, t1)
    | Except.ok _ =>
      let err2 := E.charls_jpegls_decoder_read_header decoder
      let t2 := t1 ++ [Call.readHeader decoder]
      match translate_error err2 with
      | Except.error e => (Except.error e, s1, t2)
      | Except.ok _ =>
        let q := E.charls_jpegls_decoder_get_destination_size decoder stride
        let t3 := t2 ++ [Call.getDestinationSize decoder stride]
        let size := if q.1 = 0 then some q.2 else none
        match size with
        | some size =>
            let dst : Bytes := List.replicate size 0
            let q4 := E.charls_jpegls_decoder_decode_to_buffer decoder dst size stride
            let t4 := t3 ++ [Call.decodeToBuffer decoder dst size stride]
            match translate_error q4.1 with
            | Except.error e => (Except.error e, s1, t4)
            | Except.ok _ => (Except.ok q4.2, s1, t4)
        | none => (Except.error Error.ComputeSize, s1, t3)

/-- `CharLS::decode` (lib.rs:131-133). -/
def decode (E : Engine) (s : CharLS) (src : Bytes) :
    Except Error Bytes × CharLS × List Call :=
  decode_with_stride E s src 0

/-- `CharLS::encode` (lib.rs:135-202).  `let data := src` models
`src.to_vec()`: the staging copy's contents equal the source's. -/
def encode (E : Engine) (s : CharLS) (frame_info : FrameInfo) (near : Int) (src : Bytes) :
    Except Error Bytes × CharLS × List Call :=
  let r := ensureEncoder E s
  let encoder := r.1
  let s1 := r.2.1
  let t0 := r.2.2
  if encoder = 0 then (Except.error Error.InitCodec, s1, t0)
  else
    let fi : charls_frame_info :=
      { width := frame_info.width, height := frame_info.height,
        bits_per_sample := frame_info.bits_per_sample,
        component_count := frame_info.component_count }
    let err1 := E.charls_jpegls_encoder_set_frame_info encoder fi
    let t1 := t0 ++ [Call.setFrameInfo encoder fi]
    match translate_error err1 with
    | Except.error e => (Except.error e, s1, t1)
    | Except.ok _ =>
      let q2 := E.charls_jpegls_encoder_get_estimated_destination_size encoder
      let t2 := t1 ++ [Call.getEstimatedDestinationSize encoder]
      match translate_error q2.1 with
      | Except.error e => (Except.error e, s1, t2)
      | Except.ok _ =>
        let size := q2.2
        let dst : Bytes := List.replicate size 0
        let err3 := E.charls_jpegls_encoder_set_destination_buffer encoder size
        let t3 := t2 ++ [Call.setDestinationBuffer encoder dst]
        match translate_error err3 with
        | Except.error e => (Except.error e, s1, t3)
        | Except.ok _ =>
          let err4 := E.charls_jpegls_encoder_set_near_lossless encoder near
          let t4 := t3 ++ [Call.setNearLossless encoder near]
          match translate_error err4 with
          | Except.error e => (Except.error e, s1, t4)
          | Except.ok _ =>
            let data := src
            let q5 := E.charls_jpegls_encoder_encode_from_buffer encoder data 0 dst
            let t5 := t4 ++ [Call.encodeFromBuffer encoder data]
            match translate_error q5.1 with
            | Except.error e => (Except.error e, s1, t5)
            | Except.ok _ =>
              let q6 := E.charls_jpegls_encoder_get_bytes_written encoder
              let t6 := t5 ++ [Call.getBytesWritten encoder]
              match translate_error q6.1 with
              | Except.error e => (Except.error e, s1, t6)
              | Except.ok _ => (Except.ok (q5.2.take q6.2), s1, t6)

/-- `CharLS::get_frame_info` (lib.rs:204-239). -/
def get_frame_info (E : Engine) (s : CharLS) (src : Bytes) :
    Except Error FrameInfo × CharLS × List Call :=
  let r := ensureDecoder E s
  let decoder := r.1
  let s1 := r.2.1
  let t0 := r.2.2
  if decoder = 0 then (Except.error Error.InitCodec, s1, t0)
  else
    let err1 := E.charls_jpegls_decoder_set_source_buffer decoder src
    let t1 := t0 ++ [Call.setSourceBuffer decoder src]
    match translate_error err1 with
    | Except.error e => (Except.error e, s1, t1)
    | Except.ok _ =>
      let err2 := E.charls_jpegls_decoder_read_header decoder
      let t2 := t1 ++ [Call.readHeader decoder]
      match translate_error err2 with
      | Except.error e => (Except.error e, s1, t2)
      | Except.ok _ =>
        let q3 := E.charls_jpegls_decoder_get_frame_info decoder
        let t3 := t2 ++ [Call.getFrameInfo decoder]
        match translate_error q3.1 with
        | Except.error e => (Except.error e, s1, t3)
        | Except.ok _ =>
            let fi := q3.2
            (Except.ok { width := fi.width, height := fi.height,
                         bits_per_sample := fi.bits_per_sample,
                         component_count := fi.component_count }, s1, t3)

/-- `impl Drop for CharLS` (lib.rs:242-256): destroy the decoder handle
if present, then the encoder handle if present. -/
def CharLS.drop (s : CharLS) : List Call :=
  (match s.decoder with
   | some d => [Call.decoderDestroy d]
   | none => []) ++
  (match s.encoder with
   | some e => [Call.encoderDestroy e]
   | none => [])

/-! ### Concrete engine instances, used to evaluate the model on inputs -/

/-- An engine on which handle creation returns non-null pointers and every
protocol step succeeds: decoding fills the destination with `9`s, the
estimated encode destination size is `6` and `3` bytes are written. -/
def Eok : Engine where
  charls_jpegls_decoder_create := 1
  charls_jpegls_encoder_create := 2
  charls_jpegls_decoder_set_source_buffer := fun _ _ => 0
  charls_jpegls_decoder_read_header := fun _ => 0
  charls_jpegls_decoder_get_destination_size := fun _ _ => (0, 4)
  charls_jpegls_decoder_decode_to_buffer := fun _ d _ _ => (0, List.replicate d.length 9)
  charls_jpegls_decoder_get_frame_info := fun _ =>
    (0, { width := 2, height := 2, bits_per_sample := 8, component_count := 1 })
  charls_jpegls_encoder_set_frame_info := fun _ _ => 0
  charls_jpegls_encoder_get_estimated_destination_size := fun _ => (0, 6)
  charls_jpegls_encoder_set_destination_buffer := fun _ _ => 0
  charls_jpegls_encoder_set_near_lossless := fun _ _ => 0
  charls_jpegls_encoder_encode_from_buffer := fun _ _ _ dst => (0, dst)
  charls_jpegls_encoder_get_bytes_written := fun _ => (0, 3)
  charls_get_error_message := fun _ => "native diagnostic"
  decode_len := by intro h d s st; simp
  encode_len := by intro h d st dst; rfl

/-- An engine whose handle-creation calls return the null pointer. -/
def Enull : Engine :=
  { Eok with charls_jpegls_decoder_create := 0, charls_jpegls_encoder_create := 0 }

/-- Engine failing at `set_source_buffer` with status 5. -/
def Esrc : Engine :=
  { Eok with charls_jpegls_decoder_set_source_buffer := fun _ _ => 5 }

/-- Engine failing at `read_header` with status 6. -/
def Ehdr : Engine :=
  { Eok with charls_jpegls_decoder_read_header := fun _ => 6 }

/-- Engine failing at `get_destination_size` with status 7. -/
def Esize : Engine :=
  { Eok with charls_jpegls_decoder_get_destination_size := fun _ _ => (7, 0) }

/-- Engine failing at `decode_to_buffer` with status 8. -/
def Edec : Engine :=
  { Eok with charls_jpegls_decoder_decode_to_buffer := fun _ d _ _ => (8, d)
             decode_len := by intro h d s st; rfl }

/-- Engine failing at `get_frame_info` with status 15. -/
def Egfi : Engine :=
  { Eok with charls_jpegls_decoder_get_frame_info := fun _ =>
      (15, { width := 0, height := 0, bits_per_sample := 0, component_count := 0 }) }

/-- Engine failing at `set_frame_info` with status 9. -/
def Efi : Engine :=
  { Eok with charls_jpegls_encoder_set_frame_info := fun _ _ => 9 }

/-- Engine failing at `get_estimated_destination_size` with status 10. -/
def Eest : Engine :=
  { Eok with charls_jpegls_encoder_get_estimated_destination_size := fun _ => (10, 0) }

/-- Engine failing at `set_destination_buffer` with status 11. -/
def Edst : Engine :=
  { Eok with charls_jpegls_encoder_set_destination_buffer := fun _ _ => 11 }

/-- Engine failing at `set_near_lossless` with status 12. -/
def Enear : Engine :=
  { Eok with charls_jpegls_encoder_set_near_lossless := fun _ _ => 12 }

/-- Engine failing at `encode_from_buffer` with status 13. -/
def Eenc : Engine :=
  { Eok with charls_jpegls_encoder_encode_from_buffer := fun _ _ _ dst => (13, dst)
             encode_len := by intro h d st dst; rfl }

/-- Engine failing at `get_bytes_written` with status 14. -/
def Ebw : Engine :=
  { Eok with charls_jpegls_encoder_get_bytes_written := fun _ => (14, 0) }

/-- A sample public frame info value. -/
def F1 : FrameInfo := { width := 2, height := 2, bits_per_sample := 8, component_count := 1 }

/-- `F1` converted to the native struct, as `encode` does. -/
def F1n : charls_frame_info :=
  { width := 2, height := 2, bits_per_sample := 8, component_count := 1 }

/-- The empty session, `CharLS::default()`. -/
def S0 : CharLS := { encoder := none, decoder := none }

/-! ### Helper lemmas -/

theorem ensureDecoder_state (E : Engine) (s : CharLS) :
    (ensureDecoder E s).2.1
      = { s with decoder := some (s.decoder.getD E.charls_jpegls_decoder_create) } := by
  rcases s with ⟨e, d⟩
  cases d <;> rfl

theorem ensureEncoder_state (E : Engine) (s : CharLS) :
    (ensureEncoder E s).2.1
      = { s with encoder := some (s.encoder.getD E.charls_jpegls_encoder_create) } := by
  rcases s with ⟨e, d⟩
  cases e <;> rfl

theorem decode_with_stride_state (E : Engine) (s : CharLS) (src : Bytes) (stride : Nat) :
    (decode_with_stride E s src stride).2.1 = (ensureDecoder E s).2.1 := by
  unfold decode_with_stride
  dsimp only
  repeat' split <;> try rfl

theorem get_frame_info_state (E : Engine) (s : CharLS) (src : Bytes) :
    (get_frame_info E s src).2.1 = (ensureDecoder E s).2.1 := by
  unfold get_frame_info
  dsimp only
  repeat' split <;> try rfl

theorem encode_state (E : Engine) (s : CharLS) (fi : FrameInfo) (near : Int) (src : Bytes) :
    (encode E s fi near src).2.1 = (ensureEncoder E s).2.1 := by
  unfold encode
  dsimp only
  repeat' split <;> try rfl

/-! ### Claim theorems -/

/-- C7: for every engine, session state and encoded input, `decode_with_stride data 0`
returns the same result (value, state and native-call trace) as `decode data`. -/
theorem decode_eq_decode_with_stride_zero (E : Engine) (s : CharLS) (src : Bytes) :
    decode E s src = decode_with_stride E s src 0 := rfl

/-- C8: `translate_error` maps status `0` to success and every nonzero status to
`JpegLsError` carrying exactly that code, and displaying `JpegLsError code` renders
the native message lookup for that code. -/
theorem translate_error_zero_ok_nonzero_code (E : Engine) (c : Int) :
    translate_error c
      = (if c = 0 then Except.ok () else Except.error (Error.JpegLsError c))
    ∧ (translate_error c = Except.ok () ↔ c = 0)
    ∧ Error.display E (Error.JpegLsError c) = E.charls_get_error_message c := by
  by_cases h : c = 0 <;> simp [translate_error, h, Error.display]

/-- C10: a decode-side operation leaves the encoder slot unchanged and only
rewrites the decoder slot from `none` to `some created`; `encode` leaves the
decoder slot unchanged and only rewrites the encoder slot from `none` to
`some created`; nothing else in the session is modified, on success or failure. -/
theorem ops_touch_only_own_slot (E : Engine) (s : CharLS) (src psrc : Bytes)
    (stride : Nat) (fi : FrameInfo) (near : Int) :
    (decode_with_stride E s src stride).2.1
      = { s with decoder := some (s.decoder.getD E.charls_jpegls_decoder_create) }
    ∧ (decode E s src).2.1
      = { s with decoder := some (s.decoder.getD E.charls_jpegls_decoder_create) }
    ∧ (get_frame_info E s src).2.1
      = { s with decoder := some (s.decoder.getD E.charls_jpegls_decoder_create) }
    ∧ (encode E s fi near psrc).2.1
      = { s with encoder := some (s.encoder.getD E.charls_jpegls_encoder_create) } := by
  refine ⟨?_, ?_, ?_, ?_⟩
  · rw [decode_with_stride_state, ensureDecoder_state]
  · rw [decode, decode_with_stride_state, ensureDecoder_state]
  · rw [get_frame_info_state, ensureDecoder_state]
  · rw [encode_state, ensureEncoder_state]

/-- C6: releasing a session destroys the handle held in each `some` slot exactly
once, emits no destroy call for a slot never populated, and these destroy calls
are the whole teardown trace, for every session state. -/
theorem drop_destroys_exactly_created (s : CharLS) (p : Ptr) :
    ((CharLS.drop s).count (Call.decoderDestroy p) = if s.decoder = some p then 1 else 0)
    ∧ ((CharLS.drop s).count (Call.encoderDestroy p) = if s.encoder = some p then 1 else 0)
    ∧ (s.decoder = none → ∀ q, Call.decoderDestroy q ∉ CharLS.drop s)
    ∧ (s.encoder = none → ∀ q, Call.encoderDestroy q ∉ CharLS.drop s) := by
  rcases s with ⟨e, d⟩
  cases e <;> cases d <;>
    simp [CharLS.drop, List.count_cons, List.count_nil]

/-- C6 witness: a session holding decoder handle 4 and encoder handle 3 destroys
handle 4 exactly once; a session with no decoder slot emits no decoder destroy. -/
theorem drop_destroys_exactly_created_witness :
    (CharLS.drop { encoder := some 3, decoder := some 4 }).count (Call.decoderDestroy 4) = 1
    ∧ Call.decoderDestroy 5 ∉ CharLS.drop { encoder := some 3, decoder := none } := by
  constructor
  · have h := drop_destroys_exactly_created { encoder := some 3, decoder := some 4 } 4
    simpa using h.1
  · exact (drop_destroys_exactly_created { encoder := some 3, decoder := none } 0).2.2.1 rfl 5

/-- C1 counterexample: with an engine whose decoder creation returns the null
handle, `decode_with_stride` on a fresh session returns `InitCodec` but leaves
the decoder slot populated with the null handle — not empty as claimed — and the
subsequent call performs no creation call at all (empty native-call trace). -/
theorem null_create_slot_not_left_empty :
    (decode_with_stride Enull S0 [] 0).1 = Except.error Error.InitCodec
    ∧ (decode_with_stride Enull S0 [] 0).2.1.decoder = some 0
    ∧ (decode_with_stride Enull S0 [] 0).2.1.decoder ≠ none
    ∧ (decode_with_stride Enull { encoder := none, decoder := some 0 } [] 0).2.2 = [] := by
  refine ⟨rfl, rfl, by decide, rfl⟩

/-- C1 amended: if handle creation yields the null handle, the operation returns
`InitCodec` but stores the null handle in the session's slot (`some 0`, Active);
a subsequent call on the same session reuses that stored null handle — it
performs no creation call — and again returns `InitCodec`. -/
theorem null_create_stores_null_and_poisons
    (E : Engine) (s : CharLS) (src : Bytes) (stride : Nat) (fi : FrameInfo) (near : Int)
    (hdec : E.charls_jpegls_decoder_create = 0)
    (henc : E.charls_jpegls_encoder_create = 0) :
    (s.decoder = none →
        decode_with_stride E s src stride
          = (Except.error Error.InitCodec, { s with decoder := some 0 },
             [Call.decoderCreate 0])
        ∧ get_frame_info E s src
          = (Except.error Error.InitCodec, { s with decoder := some 0 },
             [Call.decoderCreate 0]))
    ∧ (s.decoder = some 0 →
        decode_with_stride E s src stride = (Except.error Error.InitCodec, s, [])
        ∧ get_frame_info E s src = (Except.error Error.InitCodec, s, []))
    ∧ (s.encoder = none →
        encode E s fi near src
          = (Except.error Error.InitCodec, { s with encoder := some 0 },
             [Call.encoderCreate 0]))
    ∧ (s.encoder = some 0 →
        encode E s fi near src = (Except.error Error.InitCodec, s, [])) := by
  refine ⟨fun h => ⟨?_, ?_⟩, fun h => ⟨?_, ?_⟩, fun h => ?_, fun h => ?_⟩ <;>
    simp [decode_with_stride, get_frame_info, encode, ensureDecoder, ensureEncoder,
          hdec, henc, h]

/-- C1 amended witness: on the null-creating engine `Enull`, a fresh session's
decode stores `some 0` and returns `InitCodec`; the poisoned session's encode
makes no creation call and returns `InitCodec`. -/
theorem null_create_stores_null_and_poisons_witness :
    decode_with_stride Enull S0 [] 0
      = (Except.error Error.InitCodec, { encoder := none, decoder := some 0 },
         [Call.decoderCreate 0])
    ∧ encode Enull { encoder := some 0, decoder := none } F1 0 []
      = (Except.error Error.InitCodec, { encoder := some 0, decoder := none }, []) := by
  have h := null_create_stores_null_and_poisons Enull S0 [] 0 F1 0 rfl rfl
  have h2 := null_create_stores_null_and_poisons Enull
    { encoder := some 0, decoder := none } [] 0 F1 0 rfl rfl
  exact ⟨(h.1 rfl).1, h2.2.2.2 rfl⟩

/-- C2: each operation aborts at the first native call that returns a nonzero
status: it returns the typed error derived from that status, its native-call
trace ends exactly at the failing call (no further native calls), and the error
carries no output buffer.  Stated step by step for `decode_with_stride`,
`get_frame_info` and `encode`, given the handle produced by the lazy
creation step. -/
theorem ops_fail_fast (E : Engine) (s : CharLS) (src psrc : Bytes) (stride : Nat)
    (fi : FrameInfo) (near : Int) (d e : Ptr) (sd se : CharLS) (td te : List Call)
    (hd : ensureDecoder E s = (d, sd, td)) (he : ensureEncoder E s = (e, se, te)) :
    (d ≠ 0 → E.charls_jpegls_decoder_set_source_buffer d src ≠ 0 →
      decode_with_stride E s src stride
        = (Except.error (Error.JpegLsError (E.charls_jpegls_decoder_set_source_buffer d src)),
           sd, td ++ [Call.setSourceBuffer d src]))
    ∧ (d ≠ 0 → E.charls_jpegls_decoder_set_source_buffer d src = 0 →
       E.charls_jpegls_decoder_read_header d ≠ 0 →
      decode_with_stride E s src stride
        = (Except.error (Error.JpegLsError (E.charls_jpegls_decoder_read_header d)),
           sd, td ++ [Call.setSourceBuffer d src, Call.readHeader d]))
    ∧ (d ≠ 0 → E.charls_jpegls_decoder_set_source_buffer d src = 0 →
       E.charls_jpegls_decoder_read_header d = 0 →
       (E.charls_jpegls_decoder_get_destination_size d stride).1 ≠ 0 →
      decode_with_stride E s src stride
        = (Except.error Error.ComputeSize,
           sd, td ++ [Call.setSourceBuffer d src, Call.readHeader d,
                      Call.getDestinationSize d stride]))
    ∧ (d ≠ 0 → E.charls_jpegls_decoder_set_source_buffer d src = 0 →
       E.charls_jpegls_decoder_read_header d = 0 →
       (E.charls_jpegls_decoder_get_destination_size d stride).1 = 0 →
       (E.charls_jpegls_decoder_decode_to_buffer d
          (List.replicate (E.charls_jpegls_decoder_get_destination_size d stride).2 0)
          (E.charls_jpegls_decoder_get_destination_size d stride).2 stride).1 ≠ 0 →
      decode_with_stride E s src stride
        = (Except.error (Error.JpegLsError
             (E.charls_jpegls_decoder_decode_to_buffer d
               (List.replicate (E.charls_jpegls_decoder_get_destination_size d stride).2 0)
               (E.charls_jpegls_decoder_get_destination_size d stride).2 stride).1),
           sd, td ++ [Call.setSourceBuffer d src, Call.readHeader d,
                      Call.getDestinationSize d stride,
                      Call.decodeToBuffer d
                        (List.replicate
                          (E.charls_jpegls_decoder_get_destination_size d stride).2 0)
                        (E.charls_jpegls_decoder_get_destination_size d stride).2 stride]))
    ∧ (d ≠ 0 → E.charls_jpegls_decoder_set_source_buffer d src ≠ 0 →
      get_frame_info E s src
        = (Except.error (Error.JpegLsError (E.charls_jpegls_decoder_set_source_buffer d src)),
           sd, td ++ [Call.setSourceBuffer d src]))
    ∧ (d ≠ 0 → E.charls_jpegls_decoder_set_source_buffer d src = 0 →
       E.charls_jpegls_decoder_read_header d ≠ 0 →
      get_frame_info E s src
        = (Except.error (Error.JpegLsError (E.charls_jpegls_decoder_read_header d)),
           sd, td ++ [Call.setSourceBuffer d src, Call.readHeader d]))
    ∧ (d ≠ 0 → E.charls_jpegls_decoder_set_source_buffer d src = 0 →
       E.charls_jpegls_decoder_read_header d = 0 →
       (E.charls_jpegls_decoder_get_frame_info d).1 ≠ 0 →
      get_frame_info E s src
        = (Except.error (Error.JpegLsError (E.charls_jpegls_decoder_get_frame_info d).1),
           sd, td ++ [Call.setSourceBuffer d src, Call.readHeader d, Call.getFrameInfo d]))
    ∧ (e ≠ 0 →
       E.charls_jpegls_encoder_set_frame_info e
         ⟨fi.width, fi.height, fi.bits_per_sample, fi.component_count⟩ ≠ 0 →
      encode E s fi near psrc
        = (Except.error (Error.JpegLsError
             (E.charls_jpegls_encoder_set_frame_info e
               ⟨fi.width, fi.height, fi.bits_per_sample, fi.component_count⟩)),
           se, te ++ [Call.setFrameInfo e
             ⟨fi.width, fi.height, fi.bits_per_sample, fi.component_count⟩]))
    ∧ (e ≠ 0 →
       E.charls_jpegls_encoder_set_frame_info e
         ⟨fi.width, fi.height, fi.bits_per_sample, fi.component_count⟩ = 0 →
       (E.charls_jpegls_encoder_get_estimated_destination_size e).1 ≠ 0 →
      encode E s fi near psrc
        = (Except.error (Error.JpegLsError
             (E.charls_jpegls_encoder_get_estimated_destination_size e).1),
           se, te ++ [Call.setFrameInfo e
               ⟨fi.width, fi.height, fi.bits_per_sample, fi.component_count⟩,
             Call.getEstimatedDestinationSize e]))
    ∧ (e ≠ 0 →
       E.charls_jpegls_encoder_set_frame_info e
         ⟨fi.width, fi.height, fi.bits_per_sample, fi.component_count⟩ = 0 →
       (E.charls_jpegls_encoder_get_estimated_destination_size e).1 = 0 →
       E.charls_jpegls_encoder_set_destination_buffer e
         (E.charls_jpegls_encoder_get_estimated_destination_size e).2 ≠ 0 →
      encode E s fi near psrc
        = (Except.error (Error.JpegLsError
             (E.charls_jpegls_encoder_set_destination_buffer e
               (E.charls_jpegls_encoder_get_estimated_destination_size e).2)),
           se, te ++ [Call.setFrameInfo e
               ⟨fi.width, fi.height, fi.bits_per_sample, fi.component_count⟩,
             Call.getEstimatedDestinationSize e,
             Call.setDestinationBuffer e
               (List.replicate
                 (E.charls_jpegls_encoder_get_estimated_destination_size e).2 0)]))
    ∧ (e ≠ 0 →
       E.charls_jpegls_encoder_set_frame_info e
         ⟨fi.width, fi.height, fi.bits_per_sample, fi.component_count⟩ = 0 →
       (E.charls_jpegls_encoder_get_estimated_destination_size e).1 = 0 →
       E.charls_jpegls_encoder_set_destination_buffer e
         (E.charls_jpegls_encoder_get_estimated_destination_size e).2 = 0 →
       E.charls_jpegls_encoder_set_near_lossless e near ≠ 0 →
      encode E s fi near psrc
        = (Except.error (Error.JpegLsError (E.charls_jpegls_encoder_set_near_lossless e near)),
           se, te ++ [Call.setFrameInfo e
               ⟨fi.width, fi.height, fi.bits_per_sample, fi.component_count⟩,
             Call.getEstimatedDestinationSize e,
             Call.setDestinationBuffer e
               (List.replicate
                 (E.charls_jpegls_encoder_get_estimated_destination_size e).2 0),
             Call.setNearLossless e near]))
    ∧ (e ≠ 0 →
       E.charls_jpegls_encoder_set_frame_info e
         ⟨fi.width, fi.height, fi.bits_per_sample, fi.component_count⟩ = 0 →
       (E.charls_jpegls_encoder_get_estimated_destination_size e).1 = 0 →
       E.charls_jpegls_encoder_set_destination_buffer e
         (E.charls_jpegls_encoder_get_estimated_destination_size e).2 = 0 →
       E.charls_jpegls_encoder_set_near_lossless e near = 0 →
       (E.charls_jpegls_encoder_encode_from_buffer e psrc 0
         (List.replicate
           (E.charls_jpegls_encoder_get_estimated_destination_size e).2 0)).1 ≠ 0 →
      encode E s fi near psrc
        = (Except.error (Error.JpegLsError
             (E.charls_jpegls_encoder_encode_from_buffer e psrc 0
               (List.replicate
                 (E.charls_jpegls_encoder_get_estimated_destination_size e).2 0)).1),
           se, te ++ [Call.setFrameInfo e
               ⟨fi.width, fi.height, fi.bits_per_sample, fi.component_count⟩,
             Call.getEstimatedDestinationSize e,
             Call.setDestinationBuffer e
               (List.replicate
                 (E.charls_jpegls_encoder_get_estimated_destination_size e).2 0),
             Call.setNearLossless e near, Call.encodeFromBuffer e psrc]))
    ∧ (e ≠ 0 →
       E.charls_jpegls_encoder_set_frame_info e
         ⟨fi.width, fi.height, fi.bits_per_sample, fi.component_count⟩ = 0 →
       (E.charls_jpegls_encoder_get_estimated_destination_size e).1 = 0 →
       E.charls_jpegls_encoder_set_destination_buffer e
         (E.charls_jpegls_encoder_get_estimated_destination_size e).2 = 0 →
       E.charls_jpegls_encoder_set_near_lossless e near = 0 →
       (E.charls_jpegls_encoder_encode_from_buffer e psrc 0
         (List.replicate
           (E.charls_jpegls_encoder_get_estimated_destination_size e).2 0)).1 = 0 →
       (E.charls_jpegls_encoder_get_bytes_written e).1 ≠ 0 →
      encode E s fi near psrc
        = (Except.error (Error.JpegLsError (E.charls_jpegls_encoder_get_bytes_written e).1),
           se, te ++ [Call.setFrameInfo e
               ⟨fi.width, fi.height, fi.bits_per_sample, fi.component_count⟩,
             Call.getEstimatedDestinationSize e,
             Call.setDestinationBuffer e
               (List.replicate
                 (E.charls_jpegls_encoder_get_estimated_destination_size e).2 0),
             Call.setNearLossless e near, Call.encodeFromBuffer e psrc,
             Call.getBytesWritten e])) := by
  refine ⟨?_, ?_, ?_, ?_, ?_, ?_, ?_, ?_, ?_, ?_, ?_, ?_, ?_⟩ <;> intros <;>
    simp [decode_with_stride, get_frame_info, encode, hd, he, translate_error, *]

/-- C2 witness: concrete aborts, one per protocol position exercised — source
binding (`Esrc`, decode), header parsing (`Ehdr`, frame info), destination-size
query (`Esize`, decode), near-lossless setting (`Enear`, encode). -/
theorem ops_fail_fast_witness :
    decode_with_stride Esrc S0 [1] 0
      = (Except.error (Error.JpegLsError 5), { encoder := none, decoder := some 1 },
         [Call.decoderCreate 1, Call.setSourceBuffer 1 [1]])
    ∧ get_frame_info Ehdr S0 [1]
      = (Except.error (Error.JpegLsError 6), { encoder := none, decoder := some 1 },
         [Call.decoderCreate 1, Call.setSourceBuffer 1 [1], Call.readHeader 1])
    ∧ decode_with_stride Esize S0 [1] 0
      = (Except.error Error.ComputeSize, { encoder := none, decoder := some 1 },
         [Call.decoderCreate 1, Call.setSourceBuffer 1 [1], Call.readHeader 1,
          Call.getDestinationSize 1 0])
    ∧ encode Enear S0 F1 0 [7]
      = (Except.error (Error.JpegLsError 12), { encoder := some 2, decoder := none },
         [Call.encoderCreate 2, Call.setFrameInfo 2 F1n, Call.getEstimatedDestinationSize 2,
          Call.setDestinationBuffer 2 (List.replicate 6 0), Call.setNearLossless 2 0]) := by
  obtain ⟨c1, -, -, -, -, -, -, -, -, -, -, -, -⟩ :=
    ops_fail_fast Esrc S0 [1] [1] 0 F1 0 1 2 { encoder := none, decoder := some 1 }
      { encoder := some 2, decoder := none } [Call.decoderCreate 1] [Call.encoderCreate 2]
      rfl rfl
  obtain ⟨-, -, -, -, -, c6, -, -, -, -, -, -, -⟩ :=
    ops_fail_fast Ehdr S0 [1] [1] 0 F1 0 1 2 { encoder := none, decoder := some 1 }
      { encoder := some 2, decoder := none } [Call.decoderCreate 1] [Call.encoderCreate 2]
      rfl rfl
  obtain ⟨-, -, c3, -, -, -, -, -, -, -, -, -, -⟩ :=
    ops_fail_fast Esize S0 [1] [1] 0 F1 0 1 2 { encoder := none, decoder := some 1 }
      { encoder := some 2, decoder := none } [Call.decoderCreate 1] [Call.encoderCreate 2]
      rfl rfl
  obtain ⟨-, -, -, -, -, -, -, -, -, -, c11, -, -⟩ :=
    ops_fail_fast Enear S0 [1] [7] 0 F1 0 1 2 { encoder := none, decoder := some 1 }
      { encoder := some 2, decoder := none } [Call.decoderCreate 1] [Call.encoderCreate 2]
      rfl rfl
  exact ⟨c1 (by decide) (by decide),
         c6 (by decide) (by decide) (by decide),
         c3 (by decide) (by decide) (by decide) (by decide),
         c11 (by decide) (by decide) (by decide) (by decide) (by decide)⟩

/-- C3: whenever `decode_with_stride` succeeds, the destination-size query
succeeded, the returned buffer is exactly what the native transfer left in the
zero-initialized buffer of the computed size (no truncation or resizing), its
length equals that computed size, and the transfer call received the
zero-initialized buffer. -/
theorem decode_success_exact_buffer (E : Engine) (s : CharLS) (src : Bytes) (stride : Nat)
    (buf : Bytes) (s2 : CharLS) (t : List Call)
    (h : decode_with_stride E s src stride = (Except.ok buf, s2, t)) :
    (E.charls_jpegls_decoder_get_destination_size (ensureDecoder E s).1 stride).1 = 0
    ∧ buf = (E.charls_jpegls_decoder_decode_to_buffer (ensureDecoder E s).1
        (List.replicate
          (E.charls_jpegls_decoder_get_destination_size (ensureDecoder E s).1 stride).2 0)
        (E.charls_jpegls_decoder_get_destination_size (ensureDecoder E s).1 stride).2
        stride).2
    ∧ buf.length
        = (E.charls_jpegls_decoder_get_destination_size (ensureDecoder E s).1 stride).2
    ∧ Call.decodeToBuffer (ensureDecoder E s).1
        (List.replicate
          (E.charls_jpegls_decoder_get_destination_size (ensureDecoder E s).1 stride).2 0)
        (E.charls_jpegls_decoder_get_destination_size (ensureDecoder E s).1 stride).2
        stride ∈ t := by
  by_cases h0 : (ensureDecoder E s).1 = 0
  · simp [decode_with_stride, h0] at h
  · by_cases h1 : E.charls_jpegls_decoder_set_source_buffer (ensureDecoder E s).1 src = 0
    · by_cases h2 : E.charls_jpegls_decoder_read_header (ensureDecoder E s).1 = 0
      · by_cases h3 :
          (E.charls_jpegls_decoder_get_destination_size (ensureDecoder E s).1 stride).1 = 0
        · by_cases h4 :
            (E.charls_jpegls_decoder_decode_to_buffer (ensureDecoder E s).1
              (List.replicate
                (E.charls_jpegls_decoder_get_destination_size (ensureDecoder E s).1 stride).2
                0)
              (E.charls_jpegls_decoder_get_destination_size (ensureDecoder E s).1 stride).2
              stride).1 = 0
          · simp [decode_with_stride, h0, h1, h2, h3, h4, translate_error] at h
            obtain ⟨hb, -, ht⟩ := h
            subst hb
            subst ht
            refine ⟨h3, rfl, ?_, by simp⟩
            simp [E.decode_len]
          · simp [decode_with_stride, h0, h1, h2, h3, h4, translate_error] at h
        · simp [decode_with_stride, h0, h1, h2, h3, translate_error] at h
      · simp [decode_with_stride, h0, h1, h2, translate_error] at h
    · simp [decode_with_stride, h0, h1, translate_error] at h

/-- C3 witness: on `Eok`, decoding succeeds with the 4-byte buffer of `9`s the
native transfer produced; its length equals the queried size `4` and the
transfer received the zero-initialized 4-byte buffer. -/
theorem decode_success_exact_buffer_witness :
    (Eok.charls_jpegls_decoder_get_destination_size (ensureDecoder Eok S0).1 0).1 = 0
    ∧ List.replicate 4 9 = (Eok.charls_jpegls_decoder_decode_to_buffer (ensureDecoder Eok S0).1
        (List.replicate
          (Eok.charls_jpegls_decoder_get_destination_size (ensureDecoder Eok S0).1 0).2 0)
        (Eok.charls_jpegls_decoder_get_destination_size (ensureDecoder Eok S0).1 0).2 0).2
    ∧ (List.replicate 4 9).length
        = (Eok.charls_jpegls_decoder_get_destination_size (ensureDecoder Eok S0).1 0).2
    ∧ Call.decodeToBuffer (ensureDecoder Eok S0).1
        (List.replicate
          (Eok.charls_jpegls_decoder_get_destination_size (ensureDecoder Eok S0).1 0).2 0)
        (Eok.charls_jpegls_decoder_get_destination_size (ensureDecoder Eok S0).1 0).2 0
        ∈ [Call.decoderCreate 1, Call.setSourceBuffer 1 [1], Call.readHeader 1,
           Call.getDestinationSize 1 0, Call.decodeToBuffer 1 (List.replicate 4 0) 4 0] :=
  decode_success_exact_buffer Eok S0 [1] 0 (List.replicate 4 9)
    { encoder := none, decoder := some 1 }
    [Call.decoderCreate 1, Call.setSourceBuffer 1 [1], Call.readHeader 1,
     Call.getDestinationSize 1 0, Call.decodeToBuffer 1 (List.replicate 4 0) 4 0] rfl

/-- C4: `decode_with_stride` returns `ComputeSize` exactly when the decoder
handle is non-null, source binding and header parsing both returned status 0,
and the destination-size query returned a nonzero status; failures of earlier
steps never surface as `ComputeSize`. -/
theorem compute_size_error_iff (E : Engine) (s : CharLS) (src : Bytes) (stride : Nat) :
    (decode_with_stride E s src stride).1 = Except.error Error.ComputeSize
    ↔ ((ensureDecoder E s).1 ≠ 0
        ∧ E.charls_jpegls_decoder_set_source_buffer (ensureDecoder E s).1 src = 0
        ∧ E.charls_jpegls_decoder_read_header (ensureDecoder E s).1 = 0
        ∧ (E.charls_jpegls_decoder_get_destination_size (ensureDecoder E s).1 stride).1 ≠ 0) := by
  by_cases h0 : (ensureDecoder E s).1 = 0
  · simp [decode_with_stride, h0]
  · by_cases h1 : E.charls_jpegls_decoder_set_source_buffer (ensureDecoder E s).1 src = 0
    · by_cases h2 : E.charls_jpegls_decoder_read_header (ensureDecoder E s).1 = 0
      · by_cases h3 :
          (E.charls_jpegls_decoder_get_destination_size (ensureDecoder E s).1 stride).1 = 0
        · by_cases h4 :
            (E.charls_jpegls_decoder_decode_to_buffer (ensureDecoder E s).1
              (List.replicate
                (E.charls_jpegls_decoder_get_destination_size (ensureDecoder E s).1 stride).2
                0)
              (E.charls_jpegls_decoder_get_destination_size (ensureDecoder E s).1 stride).2
              stride).1 = 0 <;>
            simp [decode_with_stride, h0, h1, h2, h3, h4, translate_error]
        · simp [decode_with_stride, h0, h1, h2, h3, translate_error]
      · simp [decode_with_stride, h0, h1, h2, translate_error]
    · simp [decode_with_stride, h0, h1, translate_error]

/-- C5: whenever `encode` succeeds, the returned buffer is the destination
buffer — allocated at the estimated size and filled by the native transfer —
truncated to the bytes-written count; the pre-truncation buffer has exactly the
estimated length, and whenever the native engine honours its upper-bound
contract (bytes written ≤ estimate, spec §6), the returned length equals the
bytes-written count exactly. -/
theorem encode_success_exact_buffer (E : Engine) (s : CharLS) (fi : FrameInfo) (near : Int)
    (src buf : Bytes) (s2 : CharLS) (t : List Call)
    (h : encode E s fi near src = (Except.ok buf, s2, t)) :
    buf = ((E.charls_jpegls_encoder_encode_from_buffer (ensureEncoder E s).1 src 0
        (List.replicate
          (E.charls_jpegls_encoder_get_estimated_destination_size (ensureEncoder E s).1).2
          0)).2.take
        (E.charls_jpegls_encoder_get_bytes_written (ensureEncoder E s).1).2)
    ∧ (E.charls_jpegls_encoder_encode_from_buffer (ensureEncoder E s).1 src 0
        (List.replicate
          (E.charls_jpegls_encoder_get_estimated_destination_size (ensureEncoder E s).1).2
          0)).2.length
        = (E.charls_jpegls_encoder_get_estimated_destination_size (ensureEncoder E s).1).2
    ∧ ((E.charls_jpegls_encoder_get_bytes_written (ensureEncoder E s).1).2
        ≤ (E.charls_jpegls_encoder_get_estimated_destination_size (ensureEncoder E s).1).2
       → buf.length = (E.charls_jpegls_encoder_get_bytes_written (ensureEncoder E s).1).2) := by
  by_cases h0 : (ensureEncoder E s).1 = 0
  · simp [encode, h0] at h
  · by_cases h1 : E.charls_jpegls_encoder_set_frame_info (ensureEncoder E s).1
        ⟨fi.width, fi.height, fi.bits_per_sample, fi.component_count⟩ = 0
    · by_cases h2 :
        (E.charls_jpegls_encoder_get_estimated_destination_size (ensureEncoder E s).1).1 = 0
      · by_cases h3 : E.charls_jpegls_encoder_set_destination_buffer (ensureEncoder E s).1
            (E.charls_jpegls_encoder_get_estimated_destination_size (ensureEncoder E s).1).2
            = 0
        · by_cases h4 :
            E.charls_jpegls_encoder_set_near_lossless (ensureEncoder E s).1 near = 0
          · by_cases h5 :
              (E.charls_jpegls_encoder_encode_from_buffer (ensureEncoder E s).1 src 0
                (List.replicate
                  (E.charls_jpegls_encoder_get_estimated_destination_size
                    (ensureEncoder E s).1).2 0)).1 = 0
            · by_cases h6 :
                (E.charls_jpegls_encoder_get_bytes_written (ensureEncoder E s).1).1 = 0
              · simp [encode, h0, h1, h2, h3, h4, h5, h6, translate_error] at h
                obtain ⟨hb, -, -⟩ := h
                subst hb
                refine ⟨rfl, ?_, fun hle => ?_⟩
                · simp [E.encode_len]
                · simp [List.length_take, E.encode_len]
                  omega
              · simp [encode, h0, h1, h2, h3, h4, h5, h6, translate_error] at h
            · simp [encode, h0, h1, h2, h3, h4, h5, translate_error] at h
          · simp [encode, h0, h1, h2, h3, h4, translate_error] at h
        · simp [encode, h0, h1, h2, h3, translate_error] at h
      · simp [encode, h0, h1, h2, translate_error] at h
    · simp [encode, h0, h1, translate_error] at h

/-- C5 witness: on `Eok` (estimate 6, bytes written 3) the encode of `[7]`
returns the 6-byte destination truncated to its first 3 bytes, of length 3. -/
theorem encode_success_exact_buffer_witness :
    List.replicate 3 0
      = ((Eok.charls_jpegls_encoder_encode_from_buffer (ensureEncoder Eok S0).1 [7] 0
          (List.replicate
            (Eok.charls_jpegls_encoder_get_estimated_destination_size
              (ensureEncoder Eok S0).1).2 0)).2.take
          (Eok.charls_jpegls_encoder_get_bytes_written (ensureEncoder Eok S0).1).2)
    ∧ (List.replicate 3 0).length
        = (Eok.charls_jpegls_encoder_get_bytes_written (ensureEncoder Eok S0).1).2 := by
  have h := encode_success_exact_buffer Eok S0 F1 0 [7] (List.replicate 3 0)
    { encoder := some 2, decoder := none }
    [Call.encoderCreate 2, Call.setFrameInfo 2 F1n, Call.getEstimatedDestinationSize 2,
     Call.setDestinationBuffer 2 (List.replicate 6 0), Call.setNearLossless 2 0,
     Call.encodeFromBuffer 2 [7], Call.getBytesWritten 2] rfl
  exact ⟨h.1, h.2.2 (by decide)⟩

/-- C9: any buffer handed to the native encode transfer during `encode` is
byte-for-byte equal to the caller's source buffer — the transfer operates on a
staging copy of the source, and the immutable caller slice is never the buffer
being mutated, on success and on failure alike. -/
theorem encode_staging_copy_eq_source (E : Engine) (s : CharLS) (fi : FrameInfo)
    (near : Int) (src : Bytes) (hp : Ptr) (data : Bytes)
    (hmem : Call.encodeFromBuffer hp data ∈ (encode E s fi near src).2.2) :
    data = src := by
  rcases s with ⟨se, sd⟩
  cases se <;>
  · unfold encode ensureEncoder at hmem
    dsimp only at hmem
    repeat' split at hmem
    all_goals try simp_all

/-- C9 witness: in the successful encode of `[7, 8]` on `Eok`, the transfer
event is present and its buffer is the source `[7, 8]` itself. -/
theorem encode_staging_copy_eq_source_witness :
    Call.encodeFromBuffer 2 [7, 8] ∈ (encode Eok S0 F1 0 [7, 8]).2.2
    ∧ ([7, 8] : Bytes) = [7, 8] := by
  refine ⟨by decide, ?_⟩
  exact encode_staging_copy_eq_source Eok S0 F1 0 [7, 8] 2 [7, 8] (by decide)

end CharlsRs
